import Mathlib

/-!
Verification of the log-notification stack.

The development shallowly embeds the two executable parts of the repository:

* the notification Lambda handler (src/funcs/notification.lambda.ts), which
  base64-decodes the incoming payload, gunzips it and JSON-parses the result,
  logging and re-raising any error; and

* the Step Functions state machine built in src/index.ts, a chain of Pass /
  Choice / SnsPublish states that walks the log events of a routed event,
  parses each event's embedded message, flattens its stack-trace lines into
  one accumulator string and publishes a formatted subject/message pair.

External library primitives (base64 decoding, gzip inflation, JSON parsing)
are parameters of the embedding; everything the repository itself does is
translated state by state from the source.  The EventBridge rules of
src/index.ts are embedded as plain data so that their targets can be
inspected.
-/

namespace LogNotifStack

/-! ## Notification Lambda handler (src/funcs/notification.lambda.ts) -/

/-- Error raised by the handler: either the gunzip library call failed
(the payload bytes are not valid gzip) or JSON.parse failed on the
decompressed bytes.  The two cases carry the underlying library message. -/
inductive HandlerError where
  | decompressionError (msg : String)
  | malformedPayloadError (msg : String)
deriving DecidableEq, Repr

/-- One console line emitted by the handler, in emission order. -/
inductive ConsoleLine (γ : Type) where
  | logEvent
  | logContext
  | decodedLog (doc : γ)
  | consoleError (e : HandlerError)
deriving DecidableEq, Repr

/-- Shape of the incoming CloudWatch Logs event: event.awslogs.data is a
base64 string. -/
structure AwsLogs where
  data : String
deriving DecidableEq, Repr

structure CloudWatchLogsEvent where
  awslogs : AwsLogs
deriving DecidableEq, Repr

/-- The handler of src/funcs/notification.lambda.ts.  It is parameterised by
the three external primitives it calls: Buffer.from(-, 'base64') (total),
gunzipAsync (fallible) and JSON.parse (fallible, result type γ).  The
returned pair is the list of console lines in emission order together with
the handler's result (the decoded document, or the re-raised error). -/
def handler {γ : Type}
    (base64Decode : String → List Nat)
    (gunzipAsync : List Nat → Except String (List Nat))
    (jsonParse : List Nat → Except String γ)
    (event : CloudWatchLogsEvent) :
    List (ConsoleLine γ) × Except HandlerError γ :=
  let introLogs : List (ConsoleLine γ) := [ConsoleLine.logEvent, ConsoleLine.logContext]
  let payload := base64Decode event.awslogs.data
  match gunzipAsync payload with
  | Except.error m =>
      let e := HandlerError.decompressionError m
      (introLogs ++ [ConsoleLine.consoleError e], Except.error e)
  | Except.ok result =>
      match jsonParse result with
      | Except.error m =>
          let e := HandlerError.malformedPayloadError m
          (introLogs ++ [ConsoleLine.consoleError e], Except.error e)
      | Except.ok logData =>
          (introLogs ++ [ConsoleLine.decodedLog logData], Except.ok logData)

/-! ## EventBridge rules (src/index.ts, lines 223-275)

The stack declares two rules.  The failure rule is created with no targets;
the success rule is created with one target, an SfnStateMachine target that
starts an execution of the state machine with the matched event as input
(the CDK default when no input override is given). -/

/-- A rule target, as far as this stack uses them: an SfnStateMachine target
naming the state machine it starts. -/
inductive RuleTarget where
  | sfnStateMachine (stateMachineName : String)
deriving DecidableEq, Repr

structure EventsRule where
  ruleName : String
  source : List String
  detailType : List String
  targets : List RuleTarget
deriving DecidableEq, Repr

/-- Name of the state machine declared in src/index.ts, line 218. -/
def stateMachineName (random : String) : String :=
  "lambda-func-log-subscription-notification-" ++ random ++ "-state-machine"

/-- The failure rule of src/index.ts, lines 224-237: matches detail-type
"Lambda Function Invocation Result - Failure" and declares no targets. -/
def lambdaFunctionLogSubscriptionFuncFailureRule (random : String) : EventsRule :=
  { ruleName := "lambda-func-log-subscription-" ++ random ++ "-func-failure-rule"
    source := ["lambda"]
    detailType := ["Lambda Function Invocation Result - Failure"]
    targets := [] }

/-- The success rule of src/index.ts, lines 240-275: matches detail-type
"Lambda Function Invocation Result - Success" and declares one target, the
SfnStateMachine target that starts the state machine. -/
def lambdaFunctionLogSubscriptionFuncSuccessRule (random : String) : EventsRule :=
  { ruleName := "lambda-func-log-subscription-" ++ random ++ "-func-success-rule"
    source := ["lambda"]
    detailType := ["Lambda Function Invocation Result - Success"]
    targets := [RuleTarget.sfnStateMachine (stateMachineName random)] }

/-! ## Step Functions state machine (src/index.ts, lines 92-221)

The JSON document flowing through the execution is embedded as a record of
the paths the states read and write.  Paths that may be absent are Options;
reading an absent path in a Pass state's Parameters raises a runtime error
(States.Runtime), modelled by the failed result below. -/

/-- One element of the logEvents array; only its message field is read. -/
structure LogEvent where
  message : String
deriving DecidableEq, Repr

/-- The nested message object inside a parsed log message, read at the paths
Temp.Log.Parsed.message.errorType / errorMessage / stackTrace. -/
structure ParsedMessageBody where
  errorType : Option String
  errorMessage : Option String
  stackTrace : Option (List String)
deriving DecidableEq, Repr

/-- Result of States.StringToJson on a log event's message field, as read by
the chain: timestamp and requestId at the top, plus the nested message. -/
structure ParsedMessage where
  timestamp : Option String
  requestId : Option String
  message : Option ParsedMessageBody
deriving DecidableEq, Repr

/-- The detail.responsePayload object of the routed event. -/
structure ResponsePayload where
  logGroup : String
  logStream : String
  logEvents : List LogEvent
deriving DecidableEq, Repr

/-- The input event of an execution: account, region and
detail.responsePayload, the only input paths the chain reads. -/
structure RoutedEvent where
  account : String
  region : String
  responsePayload : ResponsePayload
deriving DecidableEq, Repr

/-- The Temp.Log subobject.  GetLogEvents writes it as a whole with only
Events set; GetLogEventDetail overwrites only Temp.Log.Event; and
GetLogEventMessage overwrites the whole of Temp.Log with only Parsed set,
which erases Events and Event. -/
structure TempLog where
  Events : Option (List LogEvent)
  EventDetail : Option LogEvent
  Parsed : Option ParsedMessage
deriving DecidableEq, Repr

/-- All paths of the execution document besides the input event.  The field
tempStackTrace2Lines stands for the path TempStackTrace.Lines read and
written by GetUntreatedMessages, which is distinct from Temp.StackTrace.Lines
and which no other state writes. -/
structure SfnData where
  input : RoutedEvent
  tempLog : Option TempLog
  tempStackTraceLines : Option (List String)
  tempGetStackTraceLine : Option String
  prepareConcatenatedStackTrace : Option String
  prepareSnsTopic : Option (String × String)
  tempStackTrace2Lines : Option (List String)
deriving DecidableEq, Repr

/-- The states of the chain, named after the construct ids of src/index.ts.
succeed is the Succeed state reached from the otherwise branch of
CheckUntreatedLogEventDetailExist. -/
inductive StateId where
  | init
  | getLogEvents
  | checkUntreatedLogEventDetailExist
  | getLogEventDetail
  | getLogEventMessage
  | getLogEventMessageStackTrace
  | checkUntreatedMessageStackTraceLinesExist
  | getLogEventMessageStackTraceLine
  | concatenateStackTraceLine
  | untreatedMessageTraceLines
  | prepareMessage
  | sendNotification
  | getUntreatedMessages
  | succeed
deriving DecidableEq, Repr

/-- Runtime errors of the execution: reading an absent path, extracting
element 0 of an empty array, or States.StringToJson failing on a message
that is not valid JSON. -/
inductive SfnError where
  | missingPath (path : String)
  | arrayOutOfBounds (path : String)
  | stringToJsonFailed
deriving DecidableEq, Repr

/-- An execution configuration: current state, document, and the list of
subject/message pairs published so far by the SendNotification task. -/
structure Config where
  state : StateId
  data : SfnData
  published : List (String × String)
deriving DecidableEq, Repr

/-- Result of stepping: still running, failed with a runtime error, or
finished at the Succeed state. -/
inductive StepResult where
  | ok (c : Config)
  | failed (c : Config) (e : SfnError)
  | done (c : Config)
deriving DecidableEq, Repr

/-- Subject built by PrepareMessage (src/index.ts, lines 94-97). -/
def prepareSubject (account region : String) : String :=
  "😵[Failure] AWS Lambda Function Invocation Error Log Found [" ++ account ++
    "][" ++ region ++ "]"

/-- Message body built by PrepareMessage (src/index.ts, lines 98-108). -/
def prepareBody (account region logGroup logStream timestamp requestId
    errorType errorMessage stackTrace : String) : String :=
  "Account : " ++ account ++
    "\nRegion : " ++ region ++
    "\nLogGroup : " ++ logGroup ++
    "\nLogStream : " ++ logStream ++
    "\nTimestamp : " ++ timestamp ++
    "\nRequestId : " ++ requestId ++
    "\nErrorType : " ++ errorType ++
    "\nErrorMessage : " ++ errorMessage ++
    "\nStackTrace : \n" ++ stackTrace

/-- One transition of the chain, translated state by state from src/index.ts.
The parameter parseMessage embeds States.StringToJson, the one external
primitive of the chain (none means the string is not valid JSON). -/
def stepOnce (parseMessage : String → Option ParsedMessage) (c : Config) : StepResult :=
  match c.state with
  | StateId.init =>
      StepResult.ok { c with
        state := StateId.getLogEvents
        data := { c.data with prepareConcatenatedStackTrace := some "" } }
  | StateId.getLogEvents =>
      StepResult.ok { c with
        state := StateId.checkUntreatedLogEventDetailExist
        data := { c.data with
          tempLog := some ⟨some c.data.input.responsePayload.logEvents, none, none⟩ } }
  | StateId.checkUntreatedLogEventDetailExist =>
      match c.data.tempLog with
      | some ⟨some (_ :: _), _, _⟩ =>
          StepResult.ok { c with state := StateId.getLogEventDetail }
      | _ => StepResult.ok { c with state := StateId.succeed }
  | StateId.getLogEventDetail =>
      match c.data.tempLog with
      | none => StepResult.failed c (SfnError.missingPath "$.Temp.Log.Events")
      | some t =>
          match t.Events with
          | none => StepResult.failed c (SfnError.missingPath "$.Temp.Log.Events")
          | some [] => StepResult.failed c (SfnError.arrayOutOfBounds "$.Temp.Log.Events")
          | some (e :: _) =>
              StepResult.ok { c with
                state := StateId.getLogEventMessage
                data := { c.data with tempLog := some { t with EventDetail := some e } } }
  | StateId.getLogEventMessage =>
      match c.data.tempLog with
      | none => StepResult.failed c (SfnError.missingPath "$.Temp.Log.Event.Detail.message")
      | some t =>
          match t.EventDetail with
          | none => StepResult.failed c (SfnError.missingPath "$.Temp.Log.Event.Detail.message")
          | some ev =>
              match parseMessage ev.message with
              | none => StepResult.failed c SfnError.stringToJsonFailed
              | some p =>
                  StepResult.ok { c with
                    state := StateId.getLogEventMessageStackTrace
                    data := { c.data with tempLog := some ⟨none, none, some p⟩ } }
  | StateId.getLogEventMessageStackTrace =>
      match c.data.tempLog with
      | none => StepResult.failed c (SfnError.missingPath "$.Temp.Log.Parsed.message.stackTrace")
      | some t =>
          match t.Parsed with
          | none => StepResult.failed c (SfnError.missingPath "$.Temp.Log.Parsed.message.stackTrace")
          | some p =>
              match p.message with
              | none => StepResult.failed c (SfnError.missingPath "$.Temp.Log.Parsed.message.stackTrace")
              | some body =>
                  match body.stackTrace with
                  | none => StepResult.failed c (SfnError.missingPath "$.Temp.Log.Parsed.message.stackTrace")
                  | some lines =>
                      StepResult.ok { c with
                        state := StateId.checkUntreatedMessageStackTraceLinesExist
                        data := { c.data with tempStackTraceLines := some lines } }
  | StateId.checkUntreatedMessageStackTraceLinesExist =>
      match c.data.tempStackTraceLines with
      | some (_ :: _) =>
          StepResult.ok { c with state := StateId.getLogEventMessageStackTraceLine }
      | _ => StepResult.ok { c with state := StateId.prepareMessage }
  | StateId.getLogEventMessageStackTraceLine =>
      match c.data.tempStackTraceLines with
      | none => StepResult.failed c (SfnError.missingPath "$.Temp.StackTrace.Lines")
      | some [] => StepResult.failed c (SfnError.arrayOutOfBounds "$.Temp.StackTrace.Lines")
      | some (l :: _) =>
          StepResult.ok { c with
            state := StateId.concatenateStackTraceLine
            data := { c.data with tempGetStackTraceLine := some l } }
  | StateId.concatenateStackTraceLine =>
      match c.data.prepareConcatenatedStackTrace with
      | none => StepResult.failed c (SfnError.missingPath "$.Prepare.Concatenated.StackTrace")
      | some acc =>
          match c.data.tempGetStackTraceLine with
          | none => StepResult.failed c (SfnError.missingPath "$.Temp.GetStackTrace.Line")
          | some l =>
              StepResult.ok { c with
                state := StateId.untreatedMessageTraceLines
                data := { c.data with prepareConcatenatedStackTrace := some (acc ++ l ++ "\n") } }
  | StateId.untreatedMessageTraceLines =>
      match c.data.tempStackTraceLines with
      | none => StepResult.failed c (SfnError.missingPath "$.Temp.StackTrace.Lines")
      | some ls =>
          StepResult.ok { c with
            state := StateId.checkUntreatedMessageStackTraceLinesExist
            data := { c.data with tempStackTraceLines := some ls.tail } }
  | StateId.prepareMessage =>
      match c.data.tempLog with
      | none => StepResult.failed c (SfnError.missingPath "$.Temp.Log.Parsed")
      | some t =>
          match t.Parsed with
          | none => StepResult.failed c (SfnError.missingPath "$.Temp.Log.Parsed")
          | some p =>
              match p.timestamp with
              | none => StepResult.failed c (SfnError.missingPath "$.Temp.Log.Parsed.timestamp")
              | some ts =>
                  match p.requestId with
                  | none => StepResult.failed c (SfnError.missingPath "$.Temp.Log.Parsed.requestId")
                  | some rid =>
                      match p.message with
                      | none => StepResult.failed c (SfnError.missingPath "$.Temp.Log.Parsed.message.errorType")
                      | some body =>
                          match body.errorType with
                          | none => StepResult.failed c (SfnError.missingPath "$.Temp.Log.Parsed.message.errorType")
                          | some et =>
                              match body.errorMessage with
                              | none => StepResult.failed c (SfnError.missingPath "$.Temp.Log.Parsed.message.errorMessage")
                              | some em =>
                                  match c.data.prepareConcatenatedStackTrace with
                                  | none => StepResult.failed c (SfnError.missingPath "$.Prepare.Concatenated.StackTrace")
                                  | some acc =>
                                      let subj := prepareSubject c.data.input.account c.data.input.region
                                      let body2 := prepareBody c.data.input.account c.data.input.region
                                        c.data.input.responsePayload.logGroup
                                        c.data.input.responsePayload.logStream
                                        ts rid et em acc
                                      StepResult.ok { c with
                                        state := StateId.sendNotification
                                        data := { c.data with prepareSnsTopic := some (subj, body2) } }
  | StateId.sendNotification =>
      match c.data.prepareSnsTopic with
      | none => StepResult.failed c (SfnError.missingPath "$.Prepare.Sns.Topic")
      | some sm =>
          StepResult.ok { c with
            state := StateId.getUntreatedMessages
            published := c.published ++ [sm] }
  | StateId.getUntreatedMessages =>
      match c.data.tempStackTrace2Lines with
      | none => StepResult.failed c (SfnError.missingPath "$.TempStackTrace.Lines")
      | some ls =>
          StepResult.ok { c with
            state := StateId.checkUntreatedLogEventDetailExist
            data := { c.data with tempStackTrace2Lines := some ls.tail } }
  | StateId.succeed => StepResult.done c

/-- Run the chain for a bounded number of transitions. -/
def runSteps (parseMessage : String → Option ParsedMessage) : Nat → Config → StepResult
  | 0, c => StepResult.ok c
  | n + 1, c =>
      match stepOnce parseMessage c with
      | StepResult.ok c' => runSteps parseMessage n c'
      | r => r

/-- The initial configuration of an execution on a routed event: control at
Init, no scratch path yet written, nothing published. -/
def initConfig (ev : RoutedEvent) : Config :=
  { state := StateId.init
    data :=
      { input := ev
        tempLog := none
        tempStackTraceLines := none
        tempGetStackTraceLine := none
        prepareConcatenatedStackTrace := none
        prepareSnsTopic := none
        tempStackTrace2Lines := none }
    published := [] }

/-- The stack-trace lines in original order, each followed by a newline;
the specification's description of the flattened stack trace. -/
def joinedLines : List String → String
  | [] => ""
  | l :: ls => l ++ "\n" ++ joinedLines ls

/-- Number of publish calls recorded in a step result. -/
def publishCount : StepResult → Nat
  | StepResult.ok c => c.published.length
  | StepResult.failed c _ => c.published.length
  | StepResult.done c => c.published.length

/-- The runtime error of a failed result, if any. -/
def failedError : StepResult → Option SfnError
  | StepResult.failed _ e => some e
  | _ => none

/-- Whether a result failed by extracting element 0 of an empty array. -/
def isOutOfBoundsFailure : StepResult → Bool
  | StepResult.failed _ (SfnError.arrayOutOfBounds _) => true
  | _ => false

/-- Whether the execution has reached the Succeed state (terminal success),
either as the current state or as a finished result. -/
def reachedSucceed : StepResult → Bool
  | StepResult.done _ => true
  | StepResult.ok c => c.state == StateId.succeed
  | StepResult.failed _ _ => false

/-- Length of the accumulator string Prepare.Concatenated.StackTrace in a
configuration (0 when the path is absent). -/
def accLen (c : Config) : Nat :=
  match c.data.prepareConcatenatedStackTrace with
  | none => 0
  | some s => s.length

/-- Current state of a running or finished result (none after a failure). -/
def stateOf : StepResult → Option StateId
  | StepResult.ok c => some c.state
  | StepResult.failed _ _ => none
  | StepResult.done c => some c.state

/-- Accumulator string of a running result (none after failure or success). -/
def accOf : StepResult → Option String
  | StepResult.ok c => c.data.prepareConcatenatedStackTrace
  | _ => none

/-- Remaining stack-trace lines of a running result. -/
def linesOf : StepResult → Option (List String)
  | StepResult.ok c => c.data.tempStackTraceLines
  | _ => none

/-- Whether a result is the finished (Succeed) outcome. -/
def isDoneResult : StepResult → Bool
  | StepResult.done _ => true
  | _ => false

/-- Domination invariant for the two element-0 extractions of the chain:
whenever control is at GetLogEventDetail the Events array has a head, and
whenever control is at GetLogEventMessageStackTraceLine the Lines array has
a head.  Each is established by the Choice state guarding the extraction. -/
def QC9 (c : Config) : Prop :=
  (c.state = StateId.getLogEventDetail →
     ∃ t e es, c.data.tempLog = some t ∧ t.Events = some (e :: es)) ∧
  (c.state = StateId.getLogEventMessageStackTraceLine →
     ∃ l ls, c.data.tempStackTraceLines = some (l :: ls))

/-- Execution invariant behind the broken outer loop: the input is fixed,
the path TempStackTrace.Lines is never written, control is never at the
Succeed state, and whenever control is at CheckUntreatedLogEventDetailExist
the Events array is non-empty (it is only ever entered from GetLogEvents,
because GetUntreatedMessages always fails on the unwritten path). -/
def InvC3 (ev : RoutedEvent) (c : Config) : Prop :=
  c.data.input = ev ∧
  c.data.tempStackTrace2Lines = none ∧
  c.state ≠ StateId.succeed ∧
  (c.state = StateId.checkUntreatedLogEventDetailExist →
    ∃ t, c.data.tempLog = some t ∧ ∃ e es, t.Events = some (e :: es))

/-- Parse function used on concrete inputs: every message string parses to a
document with all fields present and the two-line stack trace a, b. -/
def parseAB : String → Option ParsedMessage := fun _ =>
  some ⟨some "t0", some "r0", some ⟨some "TypeError", some "boom", some ["a", "b"]⟩⟩

/-- Concrete routed event with two log entries. -/
def eventTwoEntries : RoutedEvent :=
  ⟨"123456789012", "us-east-1", ⟨"grp", "strm", [⟨"m1"⟩, ⟨"m2"⟩]⟩⟩

/-- Concrete routed event with an empty logEvents array. -/
def eventNoEntries : RoutedEvent :=
  ⟨"123456789012", "us-east-1", ⟨"grp", "strm", []⟩⟩

/-- Concrete handler primitives used to evaluate the handler. -/
def b64W : String → List Nat := fun _ => [1, 2]

def gzOkW : List Nat → Except String (List Nat) := fun _ => Except.ok [3]

def gzErrW : List Nat → Except String (List Nat) := fun _ => Except.error "bad gzip"

def parseOkW : List Nat → Except String Nat := fun _ => Except.ok 7

def parseErrW : List Nat → Except String Nat := fun _ => Except.error "bad json"

def evW : CloudWatchLogsEvent := ⟨⟨"payload"⟩⟩

/-- Concrete configuration at CheckUntreatedMessageStackTraceLinesExist with
three untreated stack-trace lines and an empty accumulator. -/
def configAtCheckLines : Config :=
  { state := StateId.checkUntreatedMessageStackTraceLinesExist
    data :=
      { input := eventTwoEntries
        tempLog := some ⟨none, none, parseAB "m1"⟩
        tempStackTraceLines := some ["frame1", "frame2", "frame3"]
        tempGetStackTraceLine := none
        prepareConcatenatedStackTrace := some ""
        prepareSnsTopic := none
        tempStackTrace2Lines := none }
    published := [] }

/-- Concrete configuration at UntreatedMessageTraceLines with two remaining
stack-trace lines. -/
def configAtDrop : Config :=
  { state := StateId.untreatedMessageTraceLines
    data :=
      { input := eventTwoEntries
        tempLog := some ⟨none, none, parseAB "m1"⟩
        tempStackTraceLines := some ["a", "b"]
        tempGetStackTraceLine := some "a"
        prepareConcatenatedStackTrace := some "a\n"
        prepareSnsTopic := none
        tempStackTrace2Lines := none }
    published := [] }

/-- Concrete configuration at GetLogEventMessageStackTrace whose accumulator
already holds the non-empty string abc. -/
def configAtStackTrace : Config :=
  { state := StateId.getLogEventMessageStackTrace
    data :=
      { input := eventTwoEntries
        tempLog := some ⟨none, none, parseAB "m1"⟩
        tempStackTraceLines := none
        tempGetStackTraceLine := none
        prepareConcatenatedStackTrace := some "abc"
        prepareSnsTopic := none
        tempStackTrace2Lines := none }
    published := [] }

/-- The configuration GetLogEventMessageStackTrace actually steps to from
configAtStackTrace: the remaining-lines list is filled in and the
accumulator is left untouched. -/
def configAtStackTraceNext : Config :=
  { configAtStackTrace with
    state := StateId.checkUntreatedMessageStackTraceLinesExist
    data := { configAtStackTrace.data with tempStackTraceLines := some ["a", "b"] } }

/-! ## Helper lemmas -/

set_option linter.unnecessarySeqFocus false
set_option linter.unreachableTactic false

theorem stepOnce_ok_input (parse : String → Option ParsedMessage) (c c' : Config)
    (h : stepOnce parse c = StepResult.ok c') : c'.data.input = c.data.input := by
  cases c with
  | mk st d pub =>
    cases st <;> simp only [stepOnce] at h <;> (repeat' split at h) <;>
      (try cases h) <;> rfl

theorem stepOnce_done_state (parse : String → Option ParsedMessage) (c r : Config)
    (h : stepOnce parse c = StepResult.done r) : c.state = StateId.succeed := by
  cases c with
  | mk st d pub =>
    cases st <;> simp only [stepOnce] at h <;> (repeat' split at h) <;>
      (try cases h) <;> rfl

theorem qc9_step (parse : String → Option ParsedMessage) (c c' : Config)
    (hq : QC9 c) (h : stepOnce parse c = StepResult.ok c') : QC9 c' := by
  obtain ⟨h1, h2⟩ := hq
  cases c with
  | mk st d pub =>
    cases st <;> simp only [stepOnce] at h <;> (repeat' split at h) <;>
      (try cases h) <;> constructor <;> intro hx <;> simp_all [QC9]

theorem qc9_noOob (parse : String → Option ParsedMessage) (c : Config)
    (hq : QC9 c) : isOutOfBoundsFailure (stepOnce parse c) = false := by
  obtain ⟨h1, h2⟩ := hq
  cases c with
  | mk st d pub =>
    cases st <;> simp only [stepOnce] <;> (repeat' split) <;>
      simp_all [isOutOfBoundsFailure]

theorem runSteps_noOob (parse : String → Option ParsedMessage) :
    ∀ (n : Nat) (c : Config), QC9 c →
      isOutOfBoundsFailure (runSteps parse n c) = false := by
  intro n
  induction n with
  | zero => intro c hq; simp [runSteps, isOutOfBoundsFailure]
  | succ n ih =>
    intro c hq
    simp only [runSteps]
    cases hso : stepOnce parse c with
    | ok c' => exact ih c' (qc9_step parse c c' hq hso)
    | failed cf e =>
      have hno := qc9_noOob parse c hq
      rw [hso] at hno
      exact hno
    | done r => simp [isOutOfBoundsFailure]

theorem invC3_step (parse : String → Option ParsedMessage) (ev : RoutedEvent)
    (hne : ev.responsePayload.logEvents ≠ []) (c c' : Config)
    (hInv : InvC3 ev c) (h : stepOnce parse c = StepResult.ok c') : InvC3 ev c' := by
  obtain ⟨hin, h2, hs, hchk⟩ := hInv
  cases c with
  | mk st d pub =>
    cases st
    case checkUntreatedLogEventDetailExist =>
      obtain ⟨t, ht, e, es, hE⟩ := hchk rfl
      obtain ⟨tE, tD, tP⟩ := t
      simp only at hE
      subst hE
      simp only [stepOnce] at h
      split at h
      · cases h
        exact ⟨hin, h2, by simp, by simp⟩
      · rename_i hno
        exact absurd ht (hno e es tD tP)
    all_goals
      simp only [stepOnce] at h <;> (repeat' split at h) <;> (try cases h) <;>
        refine ⟨?_, ?_, ?_, ?_⟩ <;> simp_all <;>
        (cases hev : ev.responsePayload.logEvents <;> simp_all)

theorem runSteps_neverSucceed (parse : String → Option ParsedMessage)
    (ev : RoutedEvent) (hne : ev.responsePayload.logEvents ≠ []) :
    ∀ (n : Nat) (c : Config), InvC3 ev c →
      reachedSucceed (runSteps parse n c) = false := by
  intro n
  induction n with
  | zero =>
    intro c hInv
    simp only [runSteps, reachedSucceed]
    exact beq_eq_false_iff_ne.mpr hInv.2.2.1
  | succ n ih =>
    intro c hInv
    simp only [runSteps]
    cases hso : stepOnce parse c with
    | ok c' => exact ih c' (invC3_step parse ev hne c c' hInv hso)
    | failed cf e => simp [reachedSucceed]
    | done r => exact absurd (stepOnce_done_state parse c r hso) hInv.2.2.1

theorem runSteps_succ_ok (parse : String → Option ParsedMessage) (n : Nat)
    (c c' : Config) (h : stepOnce parse c = StepResult.ok c') :
    runSteps parse (n + 1) c = runSteps parse n c' := by
  simp [runSteps, h]


theorem innerLoop_run (parse : String → Option ParsedMessage) :
    ∀ (lines : List String) (c : Config) (acc : String),
      c.state = StateId.checkUntreatedMessageStackTraceLinesExist →
      c.data.tempStackTraceLines = some lines →
      c.data.prepareConcatenatedStackTrace = some acc →
      ∃ c', runSteps parse (4 * lines.length + 1) c = StepResult.ok c' ∧
        c'.state = StateId.prepareMessage ∧
        c'.data.prepareConcatenatedStackTrace = some (acc ++ joinedLines lines) ∧
        c'.data.tempStackTraceLines = some [] ∧
        c'.data.tempLog = c.data.tempLog ∧
        c'.data.input = c.data.input ∧
        c'.published = c.published := by
  intro lines
  induction lines with
  | nil =>
    intro c acc hst hl ha
    cases c with
    | mk st d pub =>
      subst hst
      replace hl : d.tempStackTraceLines = some [] := hl
      replace ha : d.prepareConcatenatedStackTrace = some acc := ha
      have s1 : stepOnce parse ⟨StateId.checkUntreatedMessageStackTraceLinesExist, d, pub⟩ =
          StepResult.ok ⟨StateId.prepareMessage, d, pub⟩ := by
        simp [stepOnce, hl]
      refine ⟨⟨StateId.prepareMessage, d, pub⟩, ?_, rfl, ?_, ?_, rfl, rfl, rfl⟩
      · rw [runSteps_succ_ok parse _ _ _ s1]
        simp [runSteps]
      · simpa [joinedLines] using ha
      · exact hl
  | cons l ls ih =>
    intro c acc hst hl ha
    cases c with
    | mk st d pub =>
      subst hst
      replace hl : d.tempStackTraceLines = some (l :: ls) := hl
      replace ha : d.prepareConcatenatedStackTrace = some acc := ha
      have harith : 4 * (l :: ls).length + 1 = 4 * ls.length + 1 + 4 := by
        simp [List.length_cons]
        ring
      rw [harith]
      have s1 : stepOnce parse ⟨StateId.checkUntreatedMessageStackTraceLinesExist, d, pub⟩ =
          StepResult.ok ⟨StateId.getLogEventMessageStackTraceLine, d, pub⟩ := by
        simp [stepOnce, hl]
      have s2 : stepOnce parse ⟨StateId.getLogEventMessageStackTraceLine, d, pub⟩ =
          StepResult.ok ⟨StateId.concatenateStackTraceLine,
            { d with tempGetStackTraceLine := some l }, pub⟩ := by
        simp [stepOnce, hl]
      have s3 : stepOnce parse ⟨StateId.concatenateStackTraceLine,
            { d with tempGetStackTraceLine := some l }, pub⟩ =
          StepResult.ok ⟨StateId.untreatedMessageTraceLines,
            { d with tempGetStackTraceLine := some l,
                     prepareConcatenatedStackTrace := some (acc ++ l ++ "\n") }, pub⟩ := by
        simp [stepOnce, ha]
      have s4 : stepOnce parse ⟨StateId.untreatedMessageTraceLines,
            { d with tempGetStackTraceLine := some l,
                     prepareConcatenatedStackTrace := some (acc ++ l ++ "\n") }, pub⟩ =
          StepResult.ok ⟨StateId.checkUntreatedMessageStackTraceLinesExist,
            { d with tempGetStackTraceLine := some l,
                     prepareConcatenatedStackTrace := some (acc ++ l ++ "\n"),
                     tempStackTraceLines := some ls }, pub⟩ := by
        simp [stepOnce, hl]
      rw [show 4 * ls.length + 1 + 4 = (((4 * ls.length + 1) + 1) + 1 + 1) + 1 by ring,
        runSteps_succ_ok parse _ _ _ s1, runSteps_succ_ok parse _ _ _ s2,
        runSteps_succ_ok parse _ _ _ s3, runSteps_succ_ok parse _ _ _ s4]
      obtain ⟨c', hrun, h1, h2, h3, h4, h5, h6⟩ :=
        ih ⟨StateId.checkUntreatedMessageStackTraceLinesExist,
            { d with tempGetStackTraceLine := some l,
                     prepareConcatenatedStackTrace := some (acc ++ l ++ "\n"),
                     tempStackTraceLines := some ls }, pub⟩ (acc ++ l ++ "\n") rfl (by simp) (by simp)
      refine ⟨c', hrun, h1, ?_, h3, by simpa using h4, by simpa using h5, h6⟩
      rw [h2, joinedLines]
      simp [String.append_assoc]



/-- C2 counterexample: the rule matching compute-unit invocation failures
(detail-type Lambda Function Invocation Result - Failure) has an empty
targets list, while the success rule carries the SfnStateMachine target, so
the failure-matching rule is not the one that starts the workflow. -/
theorem claim_C2_failure_rule_has_no_target :
    (lambdaFunctionLogSubscriptionFuncFailureRule "a1b2c3d4").detailType =
      ["Lambda Function Invocation Result - Failure"] ∧
    (lambdaFunctionLogSubscriptionFuncFailureRule "a1b2c3d4").targets = [] ∧
    (lambdaFunctionLogSubscriptionFuncSuccessRule "a1b2c3d4").targets =
      [RuleTarget.sfnStateMachine (stateMachineName "a1b2c3d4")] :=
  ⟨rfl, rfl, rfl⟩

/-- C2 (amended): the workflow is started by the success rule: for every
random suffix, the failure rule declares no targets, and the success rule,
which matches detail-type Lambda Function Invocation Result - Success,
declares exactly the SfnStateMachine target for the state machine. -/
theorem claim_C2_success_rule_targets_state_machine (random : String) :
    (lambdaFunctionLogSubscriptionFuncFailureRule random).targets = [] ∧
    (lambdaFunctionLogSubscriptionFuncSuccessRule random).detailType =
      ["Lambda Function Invocation Result - Success"] ∧
    (lambdaFunctionLogSubscriptionFuncSuccessRule random).targets =
      [RuleTarget.sfnStateMachine (stateMachineName random)] :=
  ⟨rfl, rfl, rfl⟩

/-- C4: when the payload gunzips and JSON-parses, the handler returns the
parsed document; when gunzip fails, the handler raises the decompression
error and its behaviour is independent of the JSON parser, which is
therefore never consulted. -/
theorem claim_C4_handler_decode {γ : Type} (b64 : String → List Nat)
    (gz : List Nat → Except String (List Nat)) (p : List Nat → Except String γ)
    (ev : CloudWatchLogsEvent) :
    (∀ bytes doc, gz (b64 ev.awslogs.data) = Except.ok bytes →
        p bytes = Except.ok doc → (handler b64 gz p ev).2 = Except.ok doc) ∧
    (∀ m, gz (b64 ev.awslogs.data) = Except.error m →
        (handler b64 gz p ev).2 = Except.error (HandlerError.decompressionError m) ∧
        ∀ p2 : List Nat → Except String γ, handler b64 gz p2 ev = handler b64 gz p ev) := by
  constructor
  · intro bytes doc h1 h2
    simp [handler, h1, h2]
  · intro m h1
    constructor
    · simp [handler, h1]
    · intro p2
      simp [handler, h1]

theorem claim_C4_witness :
    (handler b64W gzOkW parseOkW evW).2 = Except.ok 7 ∧
    (handler b64W gzErrW parseOkW evW).2 =
      Except.error (HandlerError.decompressionError "bad gzip") ∧
    handler b64W gzErrW parseErrW evW = handler b64W gzErrW parseOkW evW :=
  ⟨(claim_C4_handler_decode b64W gzOkW parseOkW evW).1 [3] 7 rfl rfl,
   ((claim_C4_handler_decode b64W gzErrW parseOkW evW).2 "bad gzip" rfl).1,
   ((claim_C4_handler_decode b64W gzErrW parseOkW evW).2 "bad gzip" rfl).2 parseErrW⟩

/-- C5: the handler fails with a decompression error exactly when gunzip
fails, with a malformed-payload error exactly when gunzip succeeds and the
JSON parse fails, and every raised error is also written to the console log
after the two diagnostic lines. -/
theorem claim_C5_error_taxonomy {γ : Type} (b64 : String → List Nat)
    (gz : List Nat → Except String (List Nat)) (p : List Nat → Except String γ)
    (ev : CloudWatchLogsEvent) :
    ((∃ m, (handler b64 gz p ev).2 = Except.error (HandlerError.decompressionError m)) ↔
       ∃ m, gz (b64 ev.awslogs.data) = Except.error m) ∧
    ((∃ m, (handler b64 gz p ev).2 = Except.error (HandlerError.malformedPayloadError m)) ↔
       ∃ bytes m, gz (b64 ev.awslogs.data) = Except.ok bytes ∧ p bytes = Except.error m) ∧
    (∀ e, (handler b64 gz p ev).2 = Except.error e →
       (handler b64 gz p ev).1 = [ConsoleLine.logEvent, ConsoleLine.logContext,
         ConsoleLine.consoleError e]) := by
  cases hgz : gz (b64 ev.awslogs.data) with
  | error m =>
    refine ⟨?_, ?_, ?_⟩
    · simp [handler, hgz]
    · simp [handler, hgz]
    · intro e he
      simp_all [handler, hgz]
  | ok bytes =>
    cases hp : p bytes with
    | error m =>
      refine ⟨?_, ?_, ?_⟩
      · simp [handler, hgz, hp]
      · simp [handler, hgz, hp]
      · intro e he
        simp_all [handler, hgz, hp]
    | ok doc =>
      refine ⟨?_, ?_, ?_⟩
      · simp [handler, hgz, hp]
      · simp [handler, hgz, hp]
      · intro e he
        simp [handler, hgz, hp] at he

theorem claim_C5_witness :
    (handler b64W gzErrW parseOkW evW).1 = [ConsoleLine.logEvent, ConsoleLine.logContext,
      ConsoleLine.consoleError (HandlerError.decompressionError "bad gzip")] :=
  (claim_C5_error_taxonomy b64W gzErrW parseOkW evW).2.2
    (HandlerError.decompressionError "bad gzip") rfl



/-- C1 (code behaviour at the failing input): on a routed event with two log
entries, both JSON-parseable with a non-empty stack trace, the execution
publishes exactly once and then fails at GetUntreatedMessages reading the
unwritten path TempStackTrace.Lines, instead of publishing twice and
succeeding. -/
theorem claim_C1_publishes_once_then_fails :
    eventTwoEntries.responsePayload.logEvents.length = 2 ∧
    publishCount (runSteps parseAB 25 (initConfig eventTwoEntries)) = 1 ∧
    failedError (runSteps parseAB 25 (initConfig eventTwoEntries)) =
      some (SfnError.missingPath "$.TempStackTrace.Lines") := by
  refine ⟨rfl, by decide, by decide⟩

/-- C3: for every routed event with a non-empty logEvents array the
execution never reaches the Succeed state, whatever the parse results and
however many transitions are allowed; the mechanism is that
GetUntreatedMessages always fails when the path TempStackTrace.Lines is
absent, and no state of the chain ever writes it. -/
theorem claim_C3_nonempty_never_reaches_succeed
    (parse : String → Option ParsedMessage) (ev : RoutedEvent)
    (hne : ev.responsePayload.logEvents ≠ []) (n : Nat) (c : Config) :
    reachedSucceed (runSteps parse n (initConfig ev)) = false ∧
    (c.state = StateId.getUntreatedMessages → c.data.tempStackTrace2Lines = none →
      stepOnce parse c = StepResult.failed c (SfnError.missingPath "$.TempStackTrace.Lines")) := by
  constructor
  · refine runSteps_neverSucceed parse ev hne n (initConfig ev) ⟨rfl, rfl, ?_, ?_⟩
    · intro h
      simp [initConfig] at h
    · intro h
      simp [initConfig] at h
  · intro hst h2
    cases c with
    | mk st d pub =>
      subst hst
      replace h2 : d.tempStackTrace2Lines = none := h2
      simp [stepOnce, h2]

theorem claim_C3_witness :
    reachedSucceed (runSteps parseAB 25 (initConfig eventTwoEntries)) = false ∧
    ((initConfig eventTwoEntries).state = StateId.getUntreatedMessages →
      (initConfig eventTwoEntries).data.tempStackTrace2Lines = none →
      stepOnce parseAB (initConfig eventTwoEntries) =
        StepResult.failed (initConfig eventTwoEntries)
          (SfnError.missingPath "$.TempStackTrace.Lines")) :=
  claim_C3_nonempty_never_reaches_succeed parseAB eventTwoEntries (by decide) 25
    (initConfig eventTwoEntries)

/-- C7: for every routed event whose logEvents array is empty, the execution
stands at the entries-remaining check after two transitions, moves from
there directly to Succeed, and finishes successfully after four transitions
with zero publish calls. -/
theorem claim_C7_empty_events_succeeds (parse : String → Option ParsedMessage)
    (ev : RoutedEvent) (h : ev.responsePayload.logEvents = []) :
    stateOf (runSteps parse 2 (initConfig ev)) =
      some StateId.checkUntreatedLogEventDetailExist ∧
    stateOf (runSteps parse 3 (initConfig ev)) = some StateId.succeed ∧
    isDoneResult (runSteps parse 4 (initConfig ev)) = true ∧
    publishCount (runSteps parse 4 (initConfig ev)) = 0 := by
  refine ⟨?_, ?_, ?_, ?_⟩ <;>
    simp [runSteps, stepOnce, initConfig, stateOf, isDoneResult, publishCount, h]

theorem claim_C7_witness :
    stateOf (runSteps parseAB 2 (initConfig eventNoEntries)) =
      some StateId.checkUntreatedLogEventDetailExist ∧
    stateOf (runSteps parseAB 3 (initConfig eventNoEntries)) = some StateId.succeed ∧
    isDoneResult (runSteps parseAB 4 (initConfig eventNoEntries)) = true ∧
    publishCount (runSteps parseAB 4 (initConfig eventNoEntries)) = 0 :=
  claim_C7_empty_events_succeeds parseAB eventNoEntries rfl

/-- C9: no execution started on a routed event ever fails by extracting
element 0 of an empty array: both extractions are dominated by the Choice
states checking presence of index 0, so the chain never reads past the end
of the Events or Lines arrays. -/
theorem claim_C9_no_out_of_bounds (parse : String → Option ParsedMessage)
    (ev : RoutedEvent) (n : Nat) :
    isOutOfBoundsFailure (runSteps parse n (initConfig ev)) = false := by
  refine runSteps_noOob parse n (initConfig ev) ⟨?_, ?_⟩
  · intro h
    simp [initConfig] at h
  · intro h
    simp [initConfig] at h



/-- C6: from the lines-remaining check with remaining lines and accumulator
acc, the flattening loop ends at PrepareMessage with the accumulator equal
to acc followed by the lines in original order, each followed by a newline;
in particular on frame1, frame2, frame3 with an empty accumulator it
produces the string frame1 newline frame2 newline frame3 newline. -/
theorem claim_C6_concat_order (parse : String → Option ParsedMessage)
    (c : Config) (lines : List String) (acc : String)
    (hst : c.state = StateId.checkUntreatedMessageStackTraceLinesExist)
    (hl : c.data.tempStackTraceLines = some lines)
    (ha : c.data.prepareConcatenatedStackTrace = some acc) :
    accOf (runSteps parse (4 * lines.length + 1) c) = some (acc ++ joinedLines lines) ∧
    stateOf (runSteps parse (4 * lines.length + 1) c) = some StateId.prepareMessage ∧
    accOf (runSteps parseAB 13 configAtCheckLines) = some "frame1\nframe2\nframe3\n" := by
  obtain ⟨c', hrun, h1, h2, _⟩ := innerLoop_run parse lines c acc hst hl ha
  refine ⟨?_, ?_, by decide⟩
  · rw [hrun]
    simpa [accOf] using h2
  · rw [hrun]
    simpa [stateOf] using h1

theorem claim_C6_witness :
    accOf (runSteps parseAB (4 * (["frame1", "frame2", "frame3"] : List String).length + 1)
        configAtCheckLines) =
      some ("" ++ joinedLines ["frame1", "frame2", "frame3"]) ∧
    stateOf (runSteps parseAB (4 * (["frame1", "frame2", "frame3"] : List String).length + 1)
        configAtCheckLines) = some StateId.prepareMessage ∧
    accOf (runSteps parseAB 13 configAtCheckLines) = some "frame1\nframe2\nframe3\n" :=
  claim_C6_concat_order parseAB configAtCheckLines ["frame1", "frame2", "frame3"] ""
    rfl rfl rfl

/-- C8 counterexample: the GetLogEventMessageStackTrace step does not reset
the accumulator: stepping it from a configuration whose accumulator is the
non-empty string abc succeeds and leaves the accumulator abc, not the empty
string. -/
theorem claim_C8_no_reset_counterexample :
    stateOf (stepOnce parseAB configAtStackTrace) =
      some StateId.checkUntreatedMessageStackTraceLinesExist ∧
    accOf (stepOnce parseAB configAtStackTrace) = some "abc" ∧
    (some "abc" : Option String) ≠ some "" :=
  ⟨rfl, rfl, by decide⟩

/-- C8 (amended): only Init writes the empty string into the accumulator;
the GetLogEventMessageStackTrace step leaves the accumulator unchanged, and
across every transition out of a state other than Init the accumulator's
length is monotonically non-decreasing. -/
theorem claim_C8_accumulator_monotone (parse : String → Option ParsedMessage)
    (c c' : Config) :
    (c.state ≠ StateId.init → stepOnce parse c = StepResult.ok c' →
      accLen c ≤ accLen c') ∧
    (c.state = StateId.getLogEventMessageStackTrace →
      stepOnce parse c = StepResult.ok c' →
      c'.data.prepareConcatenatedStackTrace = c.data.prepareConcatenatedStackTrace) := by
  constructor
  · intro hni h
    cases c with
    | mk st d pub =>
      cases st
      case init => exact absurd rfl hni
      all_goals
        simp only [stepOnce] at h <;> (repeat' split at h) <;> (try cases h) <;>
          (try simp_all [accLen, String.length_append]) <;> omega
  · intro hst h
    cases c with
    | mk st d pub =>
      subst hst
      simp only [stepOnce] at h
      (repeat' split at h) <;> (try cases h) <;> simp_all

theorem claim_C8_witness :
    accLen configAtStackTrace ≤ accLen configAtStackTraceNext ∧
    configAtStackTraceNext.data.prepareConcatenatedStackTrace =
      configAtStackTrace.data.prepareConcatenatedStackTrace :=
  ⟨(claim_C8_accumulator_monotone parseAB configAtStackTrace configAtStackTraceNext).1
      (by decide) (by decide),
   (claim_C8_accumulator_monotone parseAB configAtStackTrace configAtStackTraceNext).2
      rfl (by decide)⟩

/-- C10: the stack-trace flattening loop terminates: from the lines-remaining
check with L remaining lines, after 4 times L plus 1 transitions control is
at PrepareMessage with the remaining-lines list empty; and each pass through
the drop step replaces the list with its tail, strictly decreasing its
length. -/
theorem claim_C10_inner_loop_terminates (parse : String → Option ParsedMessage)
    (c : Config) (lines : List String) (acc : String)
    (hst : c.state = StateId.checkUntreatedMessageStackTraceLinesExist)
    (hl : c.data.tempStackTraceLines = some lines)
    (ha : c.data.prepareConcatenatedStackTrace = some acc)
    (c2 : Config) (ls : List String) :
    stateOf (runSteps parse (4 * lines.length + 1) c) = some StateId.prepareMessage ∧
    linesOf (runSteps parse (4 * lines.length + 1) c) = some [] ∧
    (c2.state = StateId.untreatedMessageTraceLines →
      c2.data.tempStackTraceLines = some ls → ls ≠ [] →
      stepOnce parse c2 = StepResult.ok { c2 with
        state := StateId.checkUntreatedMessageStackTraceLinesExist
        data := { c2.data with tempStackTraceLines := some ls.tail } } ∧
      ls.tail.length < ls.length) := by
  obtain ⟨c', hrun, h1, h2, h3, _⟩ := innerLoop_run parse lines c acc hst hl ha
  refine ⟨?_, ?_, ?_⟩
  · rw [hrun]
    simpa [stateOf] using h1
  · rw [hrun]
    simpa [linesOf] using h3
  · intro hst2 hl2 hne
    cases c2 with
    | mk st2 d2 pub2 =>
      subst hst2
      replace hl2 : d2.tempStackTraceLines = some ls := hl2
      constructor
      · simp [stepOnce, hl2]
      · cases ls with
        | nil => exact absurd rfl hne
        | cons x xs => simp

theorem claim_C10_witness :
    stateOf (runSteps parseAB (4 * (["frame1", "frame2", "frame3"] : List String).length + 1)
        configAtCheckLines) = some StateId.prepareMessage ∧
    linesOf (runSteps parseAB (4 * (["frame1", "frame2", "frame3"] : List String).length + 1)
        configAtCheckLines) = some [] ∧
    (configAtDrop.state = StateId.untreatedMessageTraceLines →
      configAtDrop.data.tempStackTraceLines = some ["a", "b"] → (["a", "b"] : List String) ≠ [] →
      stepOnce parseAB configAtDrop = StepResult.ok { configAtDrop with
        state := StateId.checkUntreatedMessageStackTraceLinesExist
        data := { configAtDrop.data with
          tempStackTraceLines := some (["a", "b"] : List String).tail } } ∧
      (["a", "b"] : List String).tail.length < (["a", "b"] : List String).length) :=
  claim_C10_inner_loop_terminates parseAB configAtCheckLines ["frame1", "frame2", "frame3"]
    "" rfl rfl rfl configAtDrop ["a", "b"]


end LogNotifStack
